import Mathlib

/-!
Verification of the NBA stats analyzer (src/nba_stats.py).

The core is `calculate_advanced_stats`, which derives four advanced metrics
from a dictionary of per-season basic statistics.  We model the input
dictionary as a record of optional rational fields (a key may be absent),
numeric values as rationals, and Python exceptions as an error value carrying
the exception class name and its message.  Dictionary key accesses are
translated in the exact order the Python source performs them, including the
short-circuit evaluation of `and` in the guard conditions, so that which
`KeyError` (if any) is raised matches the source.
-/

/-- A raised Python exception: the class it was constructed from and its
message string.  Every `raise` in the source uses the generic class
`Exception`, so `cls` is always the string Exception here. -/
structure PyErr where
  cls : String
  msg : String
deriving DecidableEq, Repr

/-- The error produced when a dictionary key `k` is absent: the source
catches the `KeyError` and re-raises
`Exception(f"Missing required statistics: {str(e)}")`.
(Python `str` of a `KeyError` wraps the key in quote characters; we keep
just the key name.) -/
def keyError (k : String) : PyErr :=
  { cls := "Exception", msg := "Missing required statistics: " ++ k }

/-- The input dictionary of basic season-average statistics.  Fields mirror
the keys used by the source (`games_played`, `min`, `pts`, `reb`, `ast`,
`stl`, `blk`, `turnover`, `fga`, `fta`, `fg_pct`, `fg3_pct`, `ft_pct`);
`none` models an absent key. -/
structure StatsRecord where
  games_played : Option ℚ
  min : Option ℚ
  pts : Option ℚ
  reb : Option ℚ
  ast : Option ℚ
  stl : Option ℚ
  blk : Option ℚ
  turnover : Option ℚ
  fga : Option ℚ
  fta : Option ℚ
  fg_pct : Option ℚ
  fg3_pct : Option ℚ
  ft_pct : Option ℚ
deriving DecidableEq, Repr

/-- The derived record built by `calculate_advanced_stats`.  The last field
models the source dictionary entry for the assist-to-turnover ratio. -/
structure AdvancedStats where
  ts_pct : ℚ
  usage_rate : ℚ
  ast_to_turnover : ℚ
  pts_per_shot : ℚ
deriving DecidableEq, Repr

/-- Direct translation of `NBAStatsAnalyzer.calculate_advanced_stats`
(src/nba_stats.py lines 55-87).  Key accesses happen in source order:
`fga` (line 61), then `fta` only if `fga > 0` (short-circuit `and`), then
`pts` only if also `fta > 0` (line 62); `min` (line 67), and inside its
branch `fta` and `turnover` again (line 68); `turnover` (line 73) and
`ast` (lines 74/76) unconditionally; `pts` again only if `fga > 0`
(line 80).  A missing key aborts the whole computation (the `except
KeyError` on line 86 re-raises), so no partial result is ever returned. -/
def calculate_advanced_stats (b : StatsRecord) : Except PyErr AdvancedStats :=
  match b.fga with
  | none => .error (keyError "fga")
  | some fga =>
    let ts_step : Except PyErr ℚ :=
      if fga > 0 then
        match b.fta with
        | none => .error (keyError "fta")
        | some fta =>
          if fta > 0 then
            match b.pts with
            | none => .error (keyError "pts")
            | some pts => .ok (pts / (2 * (fga + 0.44 * fta)) * 100)
          else .ok 0
      else .ok 0
    match ts_step with
    | .error e => .error e
    | .ok ts =>
      match b.min with
      | none => .error (keyError "min")
      | some mn =>
        let usage_step : Except PyErr ℚ :=
          if mn > 0 then
            match b.fta with
            | none => .error (keyError "fta")
            | some fta =>
              match b.turnover with
              | none => .error (keyError "turnover")
              | some tov => .ok ((fga + 0.44 * fta + tov) / mn * 100)
          else .ok 0
        match usage_step with
        | .error e => .error e
        | .ok usage =>
          match b.turnover with
          | none => .error (keyError "turnover")
          | some tov =>
            match b.ast with
            | none => .error (keyError "ast")
            | some ast =>
              let a2t : ℚ := if tov > 0 then ast / tov else ast
              let pps_step : Except PyErr ℚ :=
                if fga > 0 then
                  match b.pts with
                  | none => .error (keyError "pts")
                  | some pts => .ok (pts / fga)
                else .ok 0
              match pps_step with
              | .error e => .error e
              | .ok pps => .ok ⟨ts, usage, a2t, pps⟩

/-- A fully-populated input record (every key present), i.e. a well-formed
`BasicStats` value in the sense of the data model. -/
def mkFull (gp mn pts reb ast stl blk tov fga fta p1 p2 p3 : ℚ) : StatsRecord :=
  { games_played := some gp, min := some mn, pts := some pts, reb := some reb,
    ast := some ast, stl := some stl, blk := some blk, turnover := some tov,
    fga := some fga, fta := some fta,
    fg_pct := some p1, fg3_pct := some p2, ft_pct := some p3 }

/-- Whenever the six keys the computation reads (`min`, `pts`, `ast`,
`turnover`, `fga`, `fta`) are present, the computation never raises —
whatever the other seven keys hold, present or absent — and each of the four
metrics is given by its guarded source formula. -/
lemma calculate_advanced_stats_present (mn pts ast tov fga fta : ℚ)
    (gp reb stl blk p1 p2 p3 : Option ℚ) :
    calculate_advanced_stats
        { games_played := gp, min := some mn, pts := some pts, reb := reb,
          ast := some ast, stl := stl, blk := blk, turnover := some tov,
          fga := some fga, fta := some fta, fg_pct := p1, fg3_pct := p2, ft_pct := p3 } =
      .ok ⟨(if fga > 0 then (if fta > 0 then pts / (2 * (fga + 0.44 * fta)) * 100 else 0) else 0),
           (if mn > 0 then (fga + 0.44 * fta + tov) / mn * 100 else 0),
           (if tov > 0 then ast / tov else ast),
           (if fga > 0 then pts / fga else 0)⟩ := by
  simp only [calculate_advanced_stats]
  split_ifs <;> rfl

/-- Specialization of `calculate_advanced_stats_present` to a fully-populated
record. -/
lemma calculate_advanced_stats_mkFull
    (gp mn pts reb ast stl blk tov fga fta p1 p2 p3 : ℚ) :
    calculate_advanced_stats (mkFull gp mn pts reb ast stl blk tov fga fta p1 p2 p3) =
      .ok ⟨(if fga > 0 then (if fta > 0 then pts / (2 * (fga + 0.44 * fta)) * 100 else 0) else 0),
           (if mn > 0 then (fga + 0.44 * fta + tov) / mn * 100 else 0),
           (if tov > 0 then ast / tov else ast),
           (if fga > 0 then pts / fga else 0)⟩ :=
  calculate_advanced_stats_present mn pts ast tov fga fta
    (some gp) (some reb) (some stl) (some blk) (some p1) (some p2) (some p3)

/-- Which of the six read keys are absent from a record: `absentKey b k`
says the key named `k` is one of them and is missing from `b`. -/
def absentKey (b : StatsRecord) (k : String) : Prop :=
  (k = "fga" ∧ b.fga = none) ∨ (k = "fta" ∧ b.fta = none) ∨
  (k = "pts" ∧ b.pts = none) ∨ (k = "min" ∧ b.min = none) ∨
  (k = "turnover" ∧ b.turnover = none) ∨ (k = "ast" ∧ b.ast = none)

/-- A record with `pts` (and `fta`) absent on which the source nevertheless
succeeds: `fga == 0` short-circuits the True Shooting guard, so neither
`fta` nor `pts` is ever looked up, and `min == 0` skips the Usage branch. -/
def missing_pts_record : StatsRecord :=
  { games_played := some 70, min := some 0, pts := none, reb := some 5,
    ast := some 2, stl := some 1, blk := some 1, turnover := some 1,
    fga := some 0, fta := none, fg_pct := some (1/2), fg3_pct := some (2/5),
    ft_pct := some (4/5) }

/-- A record whose only absent key is `ast`, one of the keys read on every
control path. -/
def missing_ast_record : StatsRecord :=
  { games_played := some 70, min := some 30, pts := some 30, reb := some 5,
    ast := none, stl := some 1, blk := some 1, turnover := some 2,
    fga := some 20, fta := some 10, fg_pct := some (1/2), fg3_pct := some (2/5),
    ft_pct := some (4/5) }

/-- The analyzer object state set up by `NBAStatsAnalyzer.__init__`:
the API base URL, the credential placed in the request headers, and the
current season year. -/
structure AnalyzerState where
  base_url : String
  api_key : String
  current_season : Nat
deriving DecidableEq, Repr

/-- `calculate_advanced_stats` as the method it is in the source: it is
invoked on an analyzer object, but its body reads no attribute of `self`
and assigns none, so the result is the pure function of the record alone
and the object state comes back unchanged. -/
def calculate_advanced_stats_method (s : AnalyzerState) (b : StatsRecord) :
    Except PyErr AdvancedStats × AnalyzerState :=
  (calculate_advanced_stats b, s)

/-- A player identity as returned by the search endpoint; only the identity
matters to the claims. -/
structure Player where
  id : Nat
deriving DecidableEq, Repr

/-- The outcome of the underlying `requests.get` call in `search_player`:
either an HTTP response (status code and decoded player list) or a raised
`requests.exceptions.RequestException` carrying a message. -/
inductive NetOutcome where
  | response (status : Nat) (data : List Player)
  | requestException (msg : String)
deriving DecidableEq, Repr

/-- Direct translation of `NBAStatsAnalyzer.search_player`
(src/nba_stats.py lines 17-33): status 200 returns the data; 401, 429 and
every other status raise a generic `Exception` with a message string; a
`RequestException` from the transport is caught and re-raised as a generic
`Exception` (the `Exception`s raised for 401/429 are not themselves
`RequestException`s, so the `except` clause does not catch them). -/
def search_player (net : NetOutcome) : Except PyErr (List Player) :=
  match net with
  | .response 200 d => .ok d
  | .response 401 _ =>
      .error { cls := "Exception", msg := "Invalid API key. Please check your API key." }
  | .response 429 _ =>
      .error { cls := "Exception", msg := "Rate limit exceeded. Please try again later." }
  | .response s _ =>
      .error { cls := "Exception",
               msg := "API request failed with status code " ++ toString s }
  | .requestException m =>
      .error { cls := "Exception", msg := "API request failed: " ++ m }

/-- The exception class of a failed call, `none` on success: the only
"category" a Python caller of the source can branch on without parsing
message text. -/
def errCls : Except PyErr (List Player) → Option String
  | .error e => some e.cls
  | .ok _ => none

/-- C2: for every BasicStats input (all keys present), the True Shooting
percentage is `pts / (2 * (fga + 0.44 * fta)) * 100` when both
`fga > 0` and `fta > 0`, and `0` otherwise — in particular whenever
`fga = 0`, regardless of the remaining fields. -/
theorem ts_pct_spec (gp mn pts reb ast stl blk tov fga fta p1 p2 p3 : ℚ) :
    (calculate_advanced_stats (mkFull gp mn pts reb ast stl blk tov fga fta p1 p2 p3)).map
        AdvancedStats.ts_pct =
      .ok (if fga > 0 ∧ fta > 0 then pts / (2 * (fga + 0.44 * fta)) * 100 else 0) := by
  rw [calculate_advanced_stats_mkFull]
  simp only [Except.map]
  split_ifs <;> first | rfl | tauto

/-- C3: for every BasicStats input, the assist-to-turnover ratio is
`ast / turnover` when `turnover > 0`, and exactly the raw `ast` value
(not `0`) when `turnover = 0`. -/
theorem ast_to_turnover_spec (gp mn pts reb ast stl blk tov fga fta p1 p2 p3 : ℚ) :
    (calculate_advanced_stats (mkFull gp mn pts reb ast stl blk tov fga fta p1 p2 p3)).map
        AdvancedStats.ast_to_turnover =
      .ok (if tov > 0 then ast / tov else ast) := by
  rw [calculate_advanced_stats_mkFull]
  simp only [Except.map]

/-- C4: for every BasicStats input, the usage rate is
`(fga + 0.44 * fta + turnover) / min * 100` when `min > 0`,
and `0` when `min = 0` (the source guard covers every non-positive value). -/
theorem usage_rate_spec (gp mn pts reb ast stl blk tov fga fta p1 p2 p3 : ℚ) :
    (calculate_advanced_stats (mkFull gp mn pts reb ast stl blk tov fga fta p1 p2 p3)).map
        AdvancedStats.usage_rate =
      .ok (if mn > 0 then (fga + 0.44 * fta + tov) / mn * 100 else 0) := by
  rw [calculate_advanced_stats_mkFull]
  simp only [Except.map]

/-- C5: for every BasicStats input, points per shot attempt is
`pts / fga` when `fga > 0`, and `0` when `fga = 0`. -/
theorem pts_per_shot_spec (gp mn pts reb ast stl blk tov fga fta p1 p2 p3 : ℚ) :
    (calculate_advanced_stats (mkFull gp mn pts reb ast stl blk tov fga fta p1 p2 p3)).map
        AdvancedStats.pts_per_shot =
      .ok (if fga > 0 then pts / fga else 0) := by
  rw [calculate_advanced_stats_mkFull]
  simp only [Except.map]

/-- C6: on a well-formed BasicStats input (every numeric field
non-negative), the computation succeeds and both the assist-to-turnover
ratio and points per shot attempt are non-negative. -/
theorem nonneg_outputs_spec (gp mn pts reb ast stl blk tov fga fta p1 p2 p3 : ℚ)
    (hgp : 0 ≤ gp) (hmn : 0 ≤ mn) (hpts : 0 ≤ pts) (hreb : 0 ≤ reb)
    (hast : 0 ≤ ast) (hstl : 0 ≤ stl) (hblk : 0 ≤ blk) (htov : 0 ≤ tov)
    (hfga : 0 ≤ fga) (hfta : 0 ≤ fta) :
    ∃ r : AdvancedStats,
      calculate_advanced_stats (mkFull gp mn pts reb ast stl blk tov fga fta p1 p2 p3) =
        .ok r ∧ 0 ≤ r.ast_to_turnover ∧ 0 ≤ r.pts_per_shot := by
  refine ⟨_, calculate_advanced_stats_mkFull gp mn pts reb ast stl blk tov fga fta p1 p2 p3,
    ?_, ?_⟩
  · dsimp only
    split_ifs with h
    · exact div_nonneg hast h.le
    · exact hast
  · dsimp only
    split_ifs with h
    · exact div_nonneg hpts h.le
    · exact le_refl 0

/-- Witness for C6 at a concrete well-formed input. -/
theorem nonneg_outputs_spec_witness :
    ((0:ℚ) ≤ 70 ∧ (0:ℚ) ≤ 30 ∧ (0:ℚ) ≤ 30 ∧ (0:ℚ) ≤ 5 ∧ (0:ℚ) ≤ 5 ∧ (0:ℚ) ≤ 1 ∧
      (0:ℚ) ≤ 1 ∧ (0:ℚ) ≤ 2 ∧ (0:ℚ) ≤ 20 ∧ (0:ℚ) ≤ 10) ∧
    ∃ r : AdvancedStats,
      calculate_advanced_stats (mkFull 70 30 30 5 5 1 1 2 20 10 (1/2) (2/5) (4/5)) =
        .ok r ∧ 0 ≤ r.ast_to_turnover ∧ 0 ≤ r.pts_per_shot :=
  ⟨by norm_num,
   nonneg_outputs_spec 70 30 30 5 5 1 1 2 20 10 (1/2) (2/5) (4/5)
     (by norm_num) (by norm_num) (by norm_num) (by norm_num) (by norm_num)
     (by norm_num) (by norm_num) (by norm_num) (by norm_num) (by norm_num)⟩

/-- C7: the calculator is deterministic and stateless — the value it
returns is the same whatever analyzer object it is invoked on, equals the
pure function of the input record, and the object state is unchanged. -/
theorem calculator_deterministic_stateless :
    ∀ (s₁ s₂ : AnalyzerState) (b : StatsRecord),
      (calculate_advanced_stats_method s₁ b).1 = (calculate_advanced_stats_method s₂ b).1 ∧
      (calculate_advanced_stats_method s₁ b).2 = s₁ ∧
      (calculate_advanced_stats_method s₁ b).1 = calculate_advanced_stats b :=
  fun _ _ _ => ⟨rfl, rfl, rfl⟩

/-- C9: on the input with `pts = 30`, `fga = 20`, `fta = 10` (and any other
values making the record well formed), the True Shooting percentage is
exactly `30 / (2 * (20 + 0.44 * 10)) * 100`, which is within `0.01`
of `61.48`. -/
theorem ts_pct_example :
    calculate_advanced_stats (mkFull 70 30 30 5 5 1 1 2 20 10 (1/2) (2/5) (4/5)) =
      .ok ⟨30 / (2 * (20 + 0.44 * 10)) * 100, 88, 5 / 2, 3 / 2⟩ ∧
    |(30 / (2 * (20 + 0.44 * 10)) * 100 : ℚ) - 61.48| < 1 / 100 := by
  constructor
  · rw [calculate_advanced_stats_mkFull]
    norm_num
  · rw [abs_lt]
    constructor <;> norm_num

/-- C10: the computation reads only `fga`, `fta`, `pts`, `min`, `turnover`
and `ast`: when those six keys are present it succeeds with a complete
four-metric record, whatever the other seven keys hold (absent included),
and the result coincides with the one computed from a record where all
seven unread keys are absent. -/
theorem reads_only_six_keys (mn pts ast tov fga fta : ℚ)
    (gp reb stl blk p1 p2 p3 : Option ℚ) :
    (∃ r : AdvancedStats,
      calculate_advanced_stats
          { games_played := gp, min := some mn, pts := some pts, reb := reb,
            ast := some ast, stl := stl, blk := blk, turnover := some tov,
            fga := some fga, fta := some fta, fg_pct := p1, fg3_pct := p2, ft_pct := p3 } =
        .ok r) ∧
    calculate_advanced_stats
        { games_played := gp, min := some mn, pts := some pts, reb := reb,
          ast := some ast, stl := stl, blk := blk, turnover := some tov,
          fga := some fga, fta := some fta, fg_pct := p1, fg3_pct := p2, ft_pct := p3 } =
      calculate_advanced_stats
        { games_played := none, min := some mn, pts := some pts, reb := none,
          ast := some ast, stl := none, blk := none, turnover := some tov,
          fga := some fga, fta := some fta, fg_pct := none, fg3_pct := none,
          ft_pct := none } :=
  ⟨⟨_, calculate_advanced_stats_present mn pts ast tov fga fta gp reb stl blk p1 p2 p3⟩,
   rfl⟩

/-- C1 counterexample: `missing_pts_record` lacks the required keys `pts`
and `fta`, yet the computation succeeds and returns a complete
AdvancedStats instead of failing with a missing-field error. -/
theorem missing_field_not_always_detected :
    calculate_advanced_stats missing_pts_record = .ok ⟨0, 0, 2, 0⟩ ∧
    missing_pts_record.pts = none ∧ missing_pts_record.fta = none := by
  refine ⟨?_, rfl, rfl⟩
  simp only [calculate_advanced_stats, missing_pts_record]
  norm_num

/-- C1 amended: a missing required key aborts the computation with the
missing-field error naming an absent key — but only when the evaluation
actually reaches a lookup of an absent key.  The keys `fga`, `min`,
`turnover` and `ast` are looked up on every control path, so the absence
of any of them guarantees the failure (naming some absent key, the first
one reached); `pts` and `fta` are looked up only under the guards, and
their absence alone can go unnoticed.  No partial result is ever
produced: the outcome is either a complete record or a single error. -/
theorem missing_field_detected (b : StatsRecord)
    (h : b.fga = none ∨ b.min = none ∨ b.turnover = none ∨ b.ast = none) :
    ∃ k, calculate_advanced_stats b = .error (keyError k) ∧ absentKey b k := by
  rcases b with ⟨gp, mn, pts, reb, ast, stl, blk, tov, fga, fta, p1, p2, p3⟩
  rcases fga with _ | fga <;> rcases fta with _ | fta <;> rcases pts with _ | pts <;>
    rcases mn with _ | mn <;> rcases tov with _ | tov <;> rcases ast with _ | ast <;>
    simp only [calculate_advanced_stats] <;> (try split_ifs) <;>
    first
      | exact ⟨"fga", rfl, by simp [absentKey]⟩
      | exact ⟨"fta", rfl, by simp [absentKey]⟩
      | exact ⟨"pts", rfl, by simp [absentKey]⟩
      | exact ⟨"min", rfl, by simp [absentKey]⟩
      | exact ⟨"turnover", rfl, by simp [absentKey]⟩
      | exact ⟨"ast", rfl, by simp [absentKey]⟩
      | simp_all

/-- Witness for the amended C1: a record whose only absent key is `ast`
does fail, with the error naming `ast`. -/
theorem missing_field_detected_witness :
    (missing_ast_record.fga = none ∨ missing_ast_record.min = none ∨
      missing_ast_record.turnover = none ∨ missing_ast_record.ast = none) ∧
    ∃ k, calculate_advanced_stats missing_ast_record = .error (keyError k) ∧
      absentKey missing_ast_record k :=
  ⟨Or.inr (Or.inr (Or.inr rfl)),
   missing_field_detected missing_ast_record (Or.inr (Or.inr (Or.inr rfl)))⟩

/-- C8 counterexample: the three failure outcomes of `search_player` —
bad credentials (HTTP 401), rate limit (HTTP 429) and a transport failure —
all carry the one generic exception class, so a caller has no error
category to branch on. -/
theorem search_player_single_error_class :
    errCls (search_player (.response 401 [])) = some "Exception" ∧
    errCls (search_player (.response 429 [])) = some "Exception" ∧
    errCls (search_player (.requestException "connection refused")) = some "Exception" :=
  ⟨rfl, rfl, rfl⟩

/-- C8 amended: `search_player` signals bad credentials (HTTP 401), an
exceeded quota (HTTP 429) and transport failure as three failures of the
single generic exception class, distinguished only by their message
strings, which differ between the 401 and 429 cases and carry a distinct
transport prefix in the network-failure case. -/
theorem search_player_errors_by_message (d : List Player) (m : String) :
    search_player (.response 401 d) =
      .error { cls := "Exception", msg := "Invalid API key. Please check your API key." } ∧
    search_player (.response 429 d) =
      .error { cls := "Exception", msg := "Rate limit exceeded. Please try again later." } ∧
    search_player (.requestException m) =
      .error { cls := "Exception", msg := "API request failed: " ++ m } ∧
    ("Invalid API key. Please check your API key." : String) ≠
      "Rate limit exceeded. Please try again later." :=
  ⟨rfl, rfl, rfl, by decide⟩
